import Mathlib

/-!
Shallow embedding of the EXIF-removal cloud functions
(src/functions/main.py and src/functions/vision.py).

Artifacts live in a bucket keyed by string paths, with a string-to-string
metadata map attached.  The handlers are modelled as pure functions from the
triggering event (plus an explicit environment describing the outcome of each
external call: download, image decode, the label-detection service, the
categorizer service, the database writes, the metadata patch) to a trace of
the externally visible effects they perform, in order.
-/

/-- Artifact metadata: the string-to-string map attached to a stored object. -/
abbrev Metadata := List (String × String)

/-- Python truthiness of an optional string: None and the empty string are
falsy, every other string is truthy (mirrors `if uid:` and `if is_public:`). -/
def pyTruthy : Option String → Bool
  | none => false
  | some s => !(s = "")

/-- Python `str(x).lower()` for an optional-string value: None prints as
`None`, lowercased to `none` (mirrors `str(is_public).lower()`). -/
def pyStrLower : Option String → String
  | none => "none"
  | some s => ⟨s.data.map Char.toLower⟩

/-- Dictionary update `m[k] = v`: later lookups of `k` see `v`, all other
keys are unchanged. -/
def msetKV (m : Metadata) (k v : String) : Metadata :=
  (k, v) :: m.filter (fun kv => kv.1 ≠ k)

/-- Does the char list `l` contain `pat` as a contiguous infix? -/
def hasInfix (pat : List Char) : List Char → Bool
  | [] => pat.isPrefixOf ([] : List Char)
  | a :: rest => pat.isPrefixOf (a :: rest) || hasInfix pat rest

/-- Python `pat in s` on strings (substring containment). -/
def strContains (s pat : String) : Bool :=
  hasInfix pat.data s.data

/-- Python `s.startswith(p)`. -/
def strStartsWith (s p : String) : Bool :=
  p.data.isPrefixOf s.data

/-- Python `os.path.basename`: the characters after the last slash. -/
def basename (p : String) : String :=
  ⟨(p.data.reverse.takeWhile (fun c => c ≠ '/')).reverse⟩

/-- The guard `not content_type or not content_type.startswith("image/")`,
negated: true exactly when a content type is present and starts with
`image/` (an absent or empty content type fails `startswith` as well). -/
def isImageKind : Option String → Bool
  | none => false
  | some ct => strStartsWith ct "image/"

/-- Externally visible effects of the relocation path (process_image). -/
inductive REvent
  | download (path : String)
  | upload (dest : String) (meta : Metadata) (contentType : Option String)
deriving DecidableEq, Repr

/-- `process_image bucket-less model`: downloads the source object, strips
EXIF by re-encoding, and uploads to `processed/<basename>`.

`downloadOk = false` models `download_to_filename` raising (object vanished):
the exception is not caught, so the whole call aborts (`none`).
`decodeOk = false` models `PIL.Image.open` raising `UnidentifiedImageError`:
caught, the function logs and returns destination `None` having performed no
upload.  Otherwise the sanitized copy is uploaded with the original content
type and with `uid` and `public` carried forward when truthy. -/
def process_image (filePath : String) (contentType : Option String)
    (uid pub : Option String) (downloadOk decodeOk : Bool) :
    Option (Option String × List REvent) :=
  if downloadOk then
    if decodeOk then
      let file_name := basename filePath
      let destination_path := "processed/" ++ file_name
      let new_metadata : Metadata :=
        (if pyTruthy uid then [("uid", uid.getD "")] else []) ++
        (if pyTruthy pub then [("public", pub.getD "")] else [])
      some (some destination_path,
        [REvent.download filePath,
         REvent.upload destination_path new_metadata contentType])
    else
      some (none, [REvent.download filePath])
  else
    none

/-- Payload of a storage object-finalized notification. -/
structure StorageEvent where
  name : String
  contentType : Option String
  metadata : Option Metadata
  size : Nat
deriving DecidableEq, Repr

/-- Reactive relocation trigger `remove_exif_on_upload`: skips non-images,
zero-byte files, and paths containing `processed/`; otherwise relocates via
`process_image`.  Result `some tr` is the effect trace, `none` an uncaught
exception. -/
def remove_exif_on_upload (e : StorageEvent) (downloadOk decodeOk : Bool) :
    Option (List REvent) :=
  let metadata := e.metadata.getD []
  let uid := metadata.lookup "uid"
  let pub := metadata.lookup "public"
  if isImageKind e.contentType = false then some []
  else if e.size = 0 then some []
  else if strContains e.name "processed/" then some []
  else (process_image e.name e.contentType uid pub downloadOk decodeOk).map Prod.snd

/-- A stored object as returned by a bucket listing. -/
structure Blob where
  name : String
  contentType : Option String
  size : Nat
  metadata : Option Metadata
deriving DecidableEq, Repr

/-- The guard `blob.metadata and blob.metadata.get('processed') == 'true'`
(an absent or empty metadata dict is falsy). -/
def metaMarksProcessed : Option Metadata → Bool
  | none => false
  | some m => !m.isEmpty && (m.lookup "processed" == some "true")

/-- One iteration of the scheduled relocation sweep loop body
(scan_unprocessed_images): skips non-images, empty files, paths containing
`processed/`, and blobs whose metadata marks `processed = true`; otherwise
relocates via `process_image`. -/
def sweepStep (b : Blob) (downloadOk decodeOk : Bool) : Option (List REvent) :=
  if isImageKind b.contentType = false then some []
  else if b.size = 0 then some []
  else if strContains b.name "processed/" then some []
  else if metaMarksProcessed b.metadata then some []
  else
    let uid := match b.metadata with
      | some m => if m.isEmpty then none else m.lookup "uid"
      | none => none
    let pub := match b.metadata with
      | some m => if m.isEmpty then none else m.lookup "public"
      | none => none
    (process_image b.name b.contentType uid pub downloadOk decodeOk).map Prod.snd

/-- The primary analysis record pushed under `users/<uid>/images`
(the server-assigned `createdAt` timestamp is omitted from the model). -/
structure ImageData where
  imageUrl : String
  tags : List String
  category : String
  filePath : String
  public : Option String
  uid : String
deriving DecidableEq, Repr

/-- The lightweight public cross-reference written under `images/public`. -/
structure PublicRef where
  userImagePath : String
  imageUrl : String
  category : String
  uid : String
deriving DecidableEq, Repr

/-- Externally visible effects of the analysis path (analyze_image). -/
inductive AEvent
  | downloadBytes
  | labelCall
  | categorizeCall
  | dbSetUserRecord (userPath : String) (key : String) (data : ImageData)
  | dbSetPublicRef (key : String) (ref : PublicRef)
  | patchMeta (meta : Metadata)
deriving DecidableEq, Repr

/-- Outcome of the external collaborators used by one analyze_image call:
the label-detection service, the categorizer, the two database writes and
the final metadata patch each either succeed with the given value or raise
(raises are caught by the surrounding try/except, which only logs). -/
structure VisionEnv where
  labelsOk : Bool
  labels : List String
  categoryOk : Bool
  category : String
  pushKey : String
  setUserOk : Bool
  setPublicOk : Bool
  patchOk : Bool
deriving DecidableEq, Repr

/-- The public https URL of a stored object, derived from its path. -/
def public_url (filePath : String) : String :=
  "https://storage.googleapis.com/" ++ filePath

/-- The metadata written back by analyze_image step 6: `tagged` and
`processed` set to `true`, `uid` and `public` refreshed. -/
def newMeta (current : Metadata) (user_id is_public : Option String) : Metadata :=
  msetKV (msetKV (msetKV (msetKV current "tagged" "true")
    "processed" "true") "uid" (user_id.getD "")) "public" (pyStrLower is_public)

/-- `analyze_image` from vision.py as an effect trace.  `md` is the freshly
reloaded blob metadata (`blob.reload(); blob.metadata or {}`); the `metadata`
argument of the Python function is ignored by its body and so does not appear.
Exits immediately when `tagged == "true"` or the `uid` value is falsy.
Otherwise: downloads the bytes, calls label detection, calls the categorizer,
pushes the primary record under `users/<uid>/images`, writes the public
cross-reference when the raw `public` metadata value is truthy, and finally
patches the metadata flags.  A failing step stops the trace there (the
enclosing try/except only logs). -/
def analyze_image (md : Option Metadata) (filePath : String) (env : VisionEnv) :
    List AEvent :=
  let current := md.getD []
  if current.lookup "tagged" = some "true" then []
  else
    let user_id := current.lookup "uid"
    let is_public := current.lookup "public"
    if pyTruthy user_id = false then []
    else
      let image_url := public_url filePath
      let tr0 := [AEvent.downloadBytes, AEvent.labelCall]
      if env.labelsOk = false then tr0
      else
        let all_tags := env.labels
        let tr1 := tr0 ++ [AEvent.categorizeCall]
        if env.categoryOk = false then tr1
        else
          let category := env.category
          let user_db_path := "users/" ++ user_id.getD "" ++ "/images"
          let image_data : ImageData :=
            { imageUrl := image_url, tags := all_tags, category := category,
              filePath := filePath, public := is_public, uid := user_id.getD "" }
          if env.setUserOk = false then tr1
          else
            let user_image_key := env.pushKey
            let tr2 := tr1 ++ [AEvent.dbSetUserRecord user_db_path user_image_key image_data]
            if pyTruthy is_public then
              if env.setPublicOk = false then tr2
              else
                let public_reference : PublicRef :=
                  { userImagePath := user_db_path ++ "/" ++ user_image_key,
                    imageUrl := image_url, category := category,
                    uid := user_id.getD "" }
                let tr3 := tr2 ++ [AEvent.dbSetPublicRef user_image_key public_reference]
                if env.patchOk = false then tr3
                else tr3 ++ [AEvent.patchMeta (newMeta current user_id is_public)]
            else
              if env.patchOk = false then tr2
              else tr2 ++ [AEvent.patchMeta (newMeta current user_id is_public)]

/-- Reactive analysis trigger `analyze_processed_image`: fires on every
object finalization, skips paths that contain neither `processed/` nor
`photos/`, and otherwise hands off to analyze_image.  `reloaded` is the
metadata analyze_image sees after its own `blob.reload()`. -/
def analyze_processed_image (e : StorageEvent) (reloaded : Option Metadata)
    (env : VisionEnv) : List AEvent :=
  if strContains e.name "processed/" || strContains e.name "photos/" then
    analyze_image reloaded e.name env
  else []

/-- One iteration of the scheduled analysis sweep loop body
(analyze_untagged_images): analyzes the blob when its content type starts
with `image/` and its metadata is absent, empty, or lacks `tagged = true`. -/
def analyzeSweepStep (b : Blob) (env : VisionEnv) : List AEvent :=
  if isImageKind b.contentType then
    if (match b.metadata with
        | none => true
        | some m => m.isEmpty || !(m.lookup "tagged" == some "true")) then
      analyze_image b.metadata b.name env
    else []
  else []

/-- The scheduled analysis sweep `analyze_untagged_images`: lists the bucket
with prefix `photos/` and runs the loop body on each listed blob, returning
the per-blob effect traces. -/
def analyze_untagged_images (store : List Blob) (env : String → VisionEnv) :
    List (String × List AEvent) :=
  (store.filter (fun b => strStartsWith b.name "photos/")).map
    (fun b => (b.name, analyzeSweepStep b (env b.name)))

/-- The scheduled relocation sweep `scan_unprocessed_images` over a bucket
listing.  `env` gives, per path, whether the download and the decode succeed.
Returns the per-blob effect traces of the blobs reached, and a flag that is
true when an uncaught exception aborted the loop (the remaining blobs are
then never reached, reflecting that the loop body has no try/except). -/
def scan_unprocessed_images (blobs : List Blob) (env : String → Bool × Bool) :
    List (String × List REvent) × Bool :=
  match blobs with
  | [] => ([], false)
  | b :: rest =>
    match sweepStep b (env b.name).1 (env b.name).2 with
    | none => ([], true)
    | some tr =>
      let r := scan_unprocessed_images rest env
      ((b.name, tr) :: r.1, r.2)

/-! Concrete fixtures used by counterexamples and witnesses. -/

/-- A fully successful external environment for one analyze_image call. -/
def envAllOk : VisionEnv :=
  { labelsOk := true, labels := ["cat"], categoryOk := true, category := "Pets",
    pushKey := "k0", setUserOk := true, setPublicOk := true, patchOk := true }

/-- An environment in which the label-detection call fails. -/
def envLabelsFail : VisionEnv :=
  { envAllOk with labelsOk := false }

/-- Inbox image upload whose metadata already marks `processed = true`. -/
def evProcessedFlag : StorageEvent :=
  { name := "photos/a.jpg", contentType := some "image/jpeg",
    metadata := some [("processed", "true"), ("uid", "u1")], size := 100 }

/-- Image upload whose path contains `processed/` mid-path without lying in
the processed namespace. -/
def evMidProcessed : StorageEvent :=
  { name := "userdata/processed/x.jpg", contentType := some "image/jpeg",
    metadata := some [("uid", "u1")], size := 100 }

/-- A non-image upload. -/
def evNonImage : StorageEvent :=
  { name := "docs/x.bin", contentType := some "text/plain",
    metadata := none, size := 5 }

/-- A zero-byte upload in the monitored `photos/` directory. -/
def evZeroSize : StorageEvent :=
  { name := "photos/z.jpg", contentType := some "image/jpeg",
    metadata := none, size := 0 }

/-- A non-image artifact sitting in the processed namespace. -/
def evPdf : StorageEvent :=
  { name := "processed/doc.pdf", contentType := some "application/pdf",
    metadata := none, size := 17 }

/-- A zero-byte image blob as seen by the sweeps. -/
def blobZero : Blob :=
  { name := "photos/z.jpg", contentType := some "image/jpeg", size := 0,
    metadata := none }

/-- A non-image blob as seen by the sweeps. -/
def blobPdf : Blob :=
  { name := "processed/doc.pdf", contentType := some "application/pdf",
    size := 17, metadata := none }

/-- An image blob that vanishes between listing and fetching. -/
def blobVanish : Blob :=
  { name := "photos/vanish.jpg", contentType := some "image/jpeg", size := 100,
    metadata := some [("uid", "u1")] }

/-- A healthy image blob listed after the vanishing one. -/
def blobSecond : Blob :=
  { name := "photos/second.jpg", contentType := some "image/jpeg", size := 200,
    metadata := some [("uid", "u2")] }

/-- Sweep environment: fetching `photos/vanish.jpg` raises, everything else
succeeds. -/
def envVanish : String → Bool × Bool :=
  fun n => if n == "photos/vanish.jpg" then (false, true) else (true, true)

/-- A blob in the processed namespace, as stored for the analysis sweep. -/
def blobProcessedNs : Blob :=
  { name := "processed/a.jpg", contentType := some "image/jpeg", size := 100,
    metadata := some [("uid", "u1")] }

/-- A photos-namespace blob eligible for the analysis sweep. -/
def blobPhotos : Blob :=
  { name := "photos/a.jpg", contentType := some "image/jpeg", size := 100,
    metadata := some [("uid", "u1")] }

/-- Store fixture for the analysis sweep. -/
def storeW : List Blob := [blobProcessedNs, blobPhotos]

/-- Per-path environment fixture for the analysis sweep. -/
def envW : String → VisionEnv := fun _ => envAllOk

/-- Reloaded metadata with an owner and `public = "false"`. -/
def mdFalsePublic : Option Metadata := some [("uid", "u1"), ("public", "false")]

/-- Reloaded metadata with an owner and `public = "true"`. -/
def mdTruePublic : Option Metadata := some [("uid", "u1"), ("public", "true")]

/-- Reloaded metadata with an owner and no `public` key. -/
def mdOwnerOnly : Option Metadata := some [("uid", "u1")]

/-- Modelled from the spec words of the data model (`visibility`
public/private): an artifact counts as publicly visible when its `public`
metadata value is the string `true`, the same convention the code uses for
its other boolean flags `tagged` and `processed`. -/
def visibilityIsPublic (md : Option Metadata) : Bool :=
  (md.getD []).lookup "public" == some "true"

/-! Helper lemmas. -/

/-- Once the relocation guards pass, process_image always performs at least
the download, so its trace is never empty. -/
theorem process_image_snd_ne_nil (fp : String) (ct uid pub : Option String)
    (dl dc : Bool) (x : Option String) :
    process_image fp ct uid pub dl dc ≠ some (x, []) := by
  unfold process_image
  split_ifs <;> simp

/-- Falsiness of an optional string value is absence or emptiness. -/
theorem pyTruthy_eq_false_iff (o : Option String) :
    pyTruthy o = false ↔ (o = none ∨ o = some "") := by
  cases o with
  | none => simp [pyTruthy]
  | some s => simp [pyTruthy]

/-- Lookup of a key survives filtering out a different key. -/
theorem lookup_filter_ne (m : Metadata) (k k2 : String) (h : k ≠ k2) :
    (m.filter (fun kv => kv.1 ≠ k2)).lookup k = m.lookup k := by
  induction m with
  | nil => rfl
  | cons kv rest ih =>
    by_cases hk : kv.1 = k2
    · have h1 : decide (kv.1 ≠ k2) = false := by simp [hk]
      have hne : (k == kv.1) = false := by rw [hk]; simpa using h
      simp only [List.filter, h1, List.lookup, hne, ih]
    · have h1 : decide (kv.1 ≠ k2) = true := by simp [hk]
      simp only [List.filter, h1, List.lookup, ih]

/-- Lookup of the key just set. -/
theorem lookup_msetKV_self (m : Metadata) (k v : String) :
    (msetKV m k v).lookup k = some v := by
  simp [msetKV, List.lookup]

/-- Lookup of another key after a set. -/
theorem lookup_msetKV_ne (m : Metadata) (k k2 v : String) (h : k ≠ k2) :
    (msetKV m k2 v).lookup k = m.lookup k := by
  have hne : (k == k2) = false := by simpa using h
  simp only [msetKV, List.lookup, hne, lookup_filter_ne m k k2 h]

/-- The metadata written back by the analysis commit marks `tagged = true`. -/
theorem newMeta_tagged (c : Metadata) (u p : Option String) :
    (newMeta c u p).lookup "tagged" = some "true" := by
  unfold newMeta
  rw [lookup_msetKV_ne _ _ _ _ (by decide), lookup_msetKV_ne _ _ _ _ (by decide),
    lookup_msetKV_ne _ _ _ _ (by decide), lookup_msetKV_self]

/-- A char list starting with `photos/` cannot start with `processed/`. -/
theorem photos_processed_incompat (l : List Char)
    (h : List.isPrefixOf ([ 'p', 'h', 'o', 't', 'o', 's', '/' ]) l = true) :
    List.isPrefixOf ([ 'p', 'r', 'o', 'c', 'e', 's', 's', 'e', 'd', '/' ]) l = false := by
  match l with
  | [] => simp [List.isPrefixOf] at h
  | [a] => simp [List.isPrefixOf] at h
  | a :: b :: l =>
    simp only [List.isPrefixOf, Bool.and_eq_true, beq_iff_eq] at h
    obtain ⟨ha, hb, _⟩ := h
    subst ha
    subst hb
    simp [List.isPrefixOf]

/-- A path in the photos namespace is not in the processed namespace. -/
theorem startsWith_photos_not_processed (s : String)
    (h : strStartsWith s "photos/" = true) :
    strStartsWith s "processed/" = false := by
  have e1 : "photos/".data = ([ 'p', 'h', 'o', 't', 'o', 's', '/' ]) := rfl
  have e2 : "processed/".data = ([ 'p', 'r', 'o', 'c', 'e', 's', 's', 'e', 'd', '/' ]) := rfl
  unfold strStartsWith at h ⊢
  rw [e1] at h
  rw [e2]
  exact photos_processed_incompat s.data h

/-! Claim theorems. -/

/-- C1 (counterexample).  The claim says relocation work is skipped exactly
when the path lies in the processed namespace, the size is zero, the kind is
not an image kind, or metadata marks `processed = true`.  Two refutations:
the reactive trigger relocates `photos/a.jpg` although its metadata already
marks `processed = true` (the trigger never consults that flag), and it
skips `userdata/processed/x.jpg` although none of the four conditions holds
(the code tests substring containment of `processed/`, not namespace
membership). -/
theorem relocation_guard_claim_counterexample :
    ((evProcessedFlag.metadata.getD []).lookup "processed" = some "true" ∧
     isImageKind evProcessedFlag.contentType = true ∧
     evProcessedFlag.size ≠ 0 ∧
     strStartsWith evProcessedFlag.name "processed/" = false ∧
     remove_exif_on_upload evProcessedFlag true true =
       some [REvent.download "photos/a.jpg",
             REvent.upload "processed/a.jpg" [("uid", "u1")] (some "image/jpeg")]) ∧
    (strStartsWith evMidProcessed.name "processed/" = false ∧
     evMidProcessed.size ≠ 0 ∧
     isImageKind evMidProcessed.contentType = true ∧
     (evMidProcessed.metadata.getD []).lookup "processed" ≠ some "true" ∧
     remove_exif_on_upload evMidProcessed true true = some []) := by
  decide

/-- C1 (amended).  The reactive trigger performs no relocation work (its
trace is empty) exactly when the kind is not an image kind, the size is
zero, or the path contains `processed/`; the scheduled sweep skips exactly
when one of those holds or metadata marks `processed = true`.  In every
other case relocation proceeds (the trace is nonempty or the invocation
aborts on a fetch error). -/
theorem relocation_guard_characterization (e : StorageEvent) (b : Blob)
    (dl dc dl2 dc2 : Bool) :
    (remove_exif_on_upload e dl dc = some [] ↔
      (isImageKind e.contentType = false ∨ e.size = 0 ∨
       strContains e.name "processed/" = true)) ∧
    (sweepStep b dl2 dc2 = some [] ↔
      (isImageKind b.contentType = false ∨ b.size = 0 ∨
       strContains b.name "processed/" = true ∨
       metaMarksProcessed b.metadata = true)) := by
  constructor
  · unfold remove_exif_on_upload
    split_ifs with h1 h2 h3 <;> simp_all
    exact fun x => process_image_snd_ne_nil _ _ _ _ _ _ x
  · unfold sweepStep
    split_ifs with h1 h2 h3 h4 <;> simp_all
    exact fun x => process_image_snd_ne_nil _ _ _ _ _ _ x

/-- C1 (witness). -/
theorem relocation_guard_characterization_witness :
    remove_exif_on_upload evNonImage true true = some [] :=
  (relocation_guard_characterization evNonImage blobSecond true true true true).1.mpr
    (Or.inl (by decide))

/-- C2.  The Analysis Stage produces no effect at all (no download, no
external call, no record, no metadata change) exactly when the freshly
re-read metadata already marks `tagged = true` or the owner id is absent
(missing key or empty string, which Python treats as absent); in every other
case it proceeds. -/
theorem analysis_guard_characterization (md : Option Metadata) (p : String)
    (env : VisionEnv) :
    analyze_image md p env = [] ↔
      ((md.getD []).lookup "tagged" = some "true" ∨
       (md.getD []).lookup "uid" = none ∨
       (md.getD []).lookup "uid" = some "") := by
  rw [← pyTruthy_eq_false_iff]
  unfold analyze_image
  by_cases h1 : (md.getD []).lookup "tagged" = some "true"
  · simp [h1]
  · by_cases h2 : pyTruthy ((md.getD []).lookup "uid") = false
    · simp [h1, h2]
    · simp only [if_neg h1, if_neg h2]
      apply iff_of_false
      · split_ifs <;> simp
      · tauto

/-- C2 (witness). -/
theorem analysis_guard_characterization_witness :
    analyze_image (some [("tagged", "true"), ("uid", "u1")]) "photos/a.jpg" envAllOk = [] :=
  (analysis_guard_characterization (some [("tagged", "true"), ("uid", "u1")])
    "photos/a.jpg" envAllOk).mpr (Or.inl (by decide))

/-- C5.  A fetched artifact whose bytes are not a decodable image makes
process_image return no destination, having performed only the download:
no artifact is created at the processed path and the original is untouched. -/
theorem undecodable_image_aborts_relocation (fp : String)
    (ct uid pub : Option String) :
    process_image fp ct uid pub true false = some (none, [REvent.download fp]) := by
  unfold process_image
  simp

/-- C6 (counterexample).  A zero-byte artifact in the monitored `photos/`
directory is still analyzed by the reactive analysis trigger (which never
consults the declared size): the external services are called and a primary
analysis record is written. -/
theorem zero_size_analyzed_counterexample :
    evZeroSize.size = 0 ∧
    AEvent.labelCall ∈ analyze_processed_image evZeroSize mdOwnerOnly envAllOk ∧
    AEvent.dbSetUserRecord "users/u1/images" "k0"
      { imageUrl := "https://storage.googleapis.com/photos/z.jpg",
        tags := ["cat"], category := "Pets", filePath := "photos/z.jpg",
        public := none, uid := "u1" }
      ∈ analyze_processed_image evZeroSize mdOwnerOnly envAllOk := by
  decide

/-- C6 (amended).  A zero-size artifact is never relocated: both the
reactive relocation trigger and the scheduled relocation sweep skip it
without any effect.  The analysis paths perform no size check, so
zero-size artifacts can still be analyzed. -/
theorem zero_size_never_relocated (e : StorageEvent) (b : Blob)
    (dl dc dl2 dc2 : Bool) (h1 : e.size = 0) (h2 : b.size = 0) :
    remove_exif_on_upload e dl dc = some [] ∧ sweepStep b dl2 dc2 = some [] := by
  unfold remove_exif_on_upload sweepStep
  split_ifs <;> simp_all

/-- C6 (witness). -/
theorem zero_size_never_relocated_witness :
    remove_exif_on_upload evZeroSize true true = some [] :=
  (zero_size_never_relocated evZeroSize blobZero true true true true
    (by decide) (by decide)).1

/-- C7 (counterexample).  A non-image artifact under `processed/` is still
analyzed by the reactive analysis trigger (which checks only the directory,
never the content kind): the external services are called and a primary
analysis record is written. -/
theorem non_image_analyzed_counterexample :
    isImageKind evPdf.contentType = false ∧
    AEvent.labelCall ∈ analyze_processed_image evPdf mdOwnerOnly envAllOk ∧
    AEvent.dbSetUserRecord "users/u1/images" "k0"
      { imageUrl := "https://storage.googleapis.com/processed/doc.pdf",
        tags := ["cat"], category := "Pets", filePath := "processed/doc.pdf",
        public := none, uid := "u1" }
      ∈ analyze_processed_image evPdf mdOwnerOnly envAllOk := by
  decide

/-- C7 (amended).  An artifact whose content kind does not start with an
image tag is never relocated (both relocation paths skip it) and is never
analyzed by the scheduled analysis sweep; the reactive analysis trigger,
however, performs no content-kind check of its own. -/
theorem non_image_never_relocated_or_swept (e : StorageEvent) (b : Blob)
    (env : VisionEnv) (dl dc dl2 dc2 : Bool)
    (h1 : isImageKind e.contentType = false)
    (h2 : isImageKind b.contentType = false) :
    remove_exif_on_upload e dl dc = some [] ∧ sweepStep b dl2 dc2 = some [] ∧
    analyzeSweepStep b env = [] := by
  unfold remove_exif_on_upload sweepStep analyzeSweepStep
  split_ifs <;> simp_all

/-- C7 (witness). -/
theorem non_image_never_relocated_or_swept_witness :
    remove_exif_on_upload evNonImage true true = some [] ∧
    analyzeSweepStep blobPdf envAllOk = [] := by
  refine ⟨?_, ?_⟩
  · exact (non_image_never_relocated_or_swept evNonImage blobPdf envAllOk
      true true true true (by decide) (by decide)).1
  · exact (non_image_never_relocated_or_swept evNonImage blobPdf envAllOk
      true true true true (by decide) (by decide)).2.2

/-- C8 (code evaluation at the failing input).  When the first listed
artifact vanishes between listing and fetching, its uncaught fetch error
aborts the whole relocation sweep: nothing is processed and the abort flag
is set, although the same second artifact alone would have been relocated
by the very same sweep. -/
theorem sweep_aborts_on_vanished_artifact :
    scan_unprocessed_images [blobVanish, blobSecond] envVanish = ([], true) ∧
    scan_unprocessed_images [blobSecond] envVanish =
      ([("photos/second.jpg",
         [REvent.download "photos/second.jpg",
          REvent.upload "processed/second.jpg" [("uid", "u2")] (some "image/jpeg")])],
       false) := by
  decide

/-- C3.  In every execution of the Analysis Stage, whenever the trace
commits the metadata flags (a patch event, which always marks
`tagged = true`), the primary analysis record was written strictly earlier
in the same trace: no execution commits `tagged = true` without having
written the record first. -/
theorem analysis_record_before_flag (md : Option Metadata) (p : String)
    (env : VisionEnv) (i : Nat) (m : Metadata)
    (h : (analyze_image md p env)[i]? = some (AEvent.patchMeta m)) :
    m.lookup "tagged" = some "true" ∧
    ∃ j, j < i ∧ ∃ up k d,
      (analyze_image md p env)[j]? = some (AEvent.dbSetUserRecord up k d) := by
  by_cases h1 : ((md.getD []).lookup "tagged" = some "true")
  · unfold analyze_image at h
    rw [if_pos h1] at h
    simp at h
  · by_cases h2 : pyTruthy ((md.getD []).lookup "uid") = false
    · unfold analyze_image at h
      rw [if_neg h1, if_pos h2] at h
      simp at h
    · by_cases h3 : env.labelsOk = false
      · unfold analyze_image at h
        simp only [if_neg h1, if_neg h2, if_pos h3] at h
        have hm := List.getElem?_mem h
        simp at hm
      · by_cases h4 : env.categoryOk = false
        · unfold analyze_image at h
          simp only [if_neg h1, if_neg h2, if_neg h3, if_pos h4] at h
          have hm := List.getElem?_mem h
          simp at hm
        · by_cases h5 : env.setUserOk = false
          · unfold analyze_image at h
            simp only [if_neg h1, if_neg h2, if_neg h3, if_neg h4, if_pos h5] at h
            have hm := List.getElem?_mem h
            simp at hm
          · by_cases h6 : pyTruthy ((md.getD []).lookup "public") = true
            · by_cases h7 : env.setPublicOk = false
              · unfold analyze_image at h
                simp only [if_neg h1, if_neg h2, if_neg h3, if_neg h4, if_neg h5,
                  if_pos h6, if_pos h7] at h
                have hm := List.getElem?_mem h
                simp at hm
              · by_cases h8 : env.patchOk = false
                · unfold analyze_image at h
                  simp only [if_neg h1, if_neg h2, if_neg h3, if_neg h4, if_neg h5,
                    if_pos h6, if_neg h7, if_pos h8] at h
                  have hm := List.getElem?_mem h
                  simp at hm
                · unfold analyze_image at h ⊢
                  simp only [if_neg h1, if_neg h2, if_neg h3, if_neg h4, if_neg h5,
                    if_pos h6, if_neg h7, if_neg h8] at h ⊢
                  rcases i with _ | _ | _ | _ | _ | _ | i <;> simp_all
                  refine ⟨?_, 3, by omega, _, _, _, rfl⟩
                  rw [← h]
                  exact newMeta_tagged _ _ _
            · by_cases h8 : env.patchOk = false
              · unfold analyze_image at h
                simp only [if_neg h1, if_neg h2, if_neg h3, if_neg h4, if_neg h5,
                  if_neg h6, if_pos h8] at h
                have hm := List.getElem?_mem h
                simp at hm
              · unfold analyze_image at h ⊢
                simp only [if_neg h1, if_neg h2, if_neg h3, if_neg h4, if_neg h5,
                  if_neg h6, if_neg h8] at h ⊢
                rcases i with _ | _ | _ | _ | _ | i <;> simp_all
                refine ⟨?_, 3, by omega, _, _, _, rfl⟩
                rw [← h]
                exact newMeta_tagged _ _ _

/-- C3 (witness). -/
theorem analysis_record_before_flag_witness :
    ∃ j, j < 4 ∧ ∃ up k d,
      (analyze_image mdOwnerOnly "photos/a.jpg" envAllOk)[j]? =
        some (AEvent.dbSetUserRecord up k d) :=
  (analysis_record_before_flag mdOwnerOnly "photos/a.jpg" envAllOk 4
    (newMeta [("uid", "u1")] (some "u1") none) (by decide)).2

/-- C4.  If the label-detection call or the categorization call fails, the
invocation writes no primary record and no public cross-reference and leaves
the artifact metadata unpatched: the analysis is abandoned whole for this
invocation. -/
theorem analysis_abandoned_on_service_failure (md : Option Metadata)
    (p : String) (env : VisionEnv)
    (h : env.labelsOk = false ∨ env.categoryOk = false) :
    (∀ up k d, AEvent.dbSetUserRecord up k d ∉ analyze_image md p env) ∧
    (∀ k r, AEvent.dbSetPublicRef k r ∉ analyze_image md p env) ∧
    (∀ m, AEvent.patchMeta m ∉ analyze_image md p env) := by
  unfold analyze_image
  rcases h with h | h <;> split_ifs <;> simp_all

/-- C4 (witness). -/
theorem analysis_abandoned_on_service_failure_witness :
    AEvent.patchMeta [] ∉ analyze_image mdOwnerOnly "photos/a.jpg" envLabelsFail :=
  (analysis_abandoned_on_service_failure mdOwnerOnly "photos/a.jpg" envLabelsFail
    (Or.inl (by decide))).2.2 []

/-- C9 (counterexample).  An artifact whose `public` metadata value is the
string `false` is not publicly visible, yet a successful analysis still
writes the public cross-reference, because the code tests Python truthiness
of the raw string rather than comparing it with `true`. -/
theorem public_ref_truthiness_counterexample :
    visibilityIsPublic mdFalsePublic = false ∧
    AEvent.patchMeta [("public", "false"), ("uid", "u1"), ("processed", "true"), ("tagged", "true")]
      ∈ analyze_image mdFalsePublic "photos/a.jpg" envAllOk ∧
    AEvent.dbSetPublicRef "k0"
      { userImagePath := "users/u1/images/k0",
        imageUrl := "https://storage.googleapis.com/photos/a.jpg",
        category := "Pets", uid := "u1" }
      ∈ analyze_image mdFalsePublic "photos/a.jpg" envAllOk := by
  decide

/-- C9 (amended).  In every completed analysis (one whose trace reaches the
final metadata patch), the public cross-reference is written exactly when
the raw `public` metadata value is truthy in the Python sense, i.e. present
and non-empty; the string `false` also counts as truthy. -/
theorem public_ref_iff_truthy_public (md : Option Metadata) (p : String)
    (env : VisionEnv)
    (h : ∃ m, AEvent.patchMeta m ∈ analyze_image md p env) :
    (∃ k r, AEvent.dbSetPublicRef k r ∈ analyze_image md p env) ↔
      pyTruthy ((md.getD []).lookup "public") = true := by
  obtain ⟨m, hm⟩ := h
  by_cases h1 : ((md.getD []).lookup "tagged" = some "true")
  · unfold analyze_image at hm
    rw [if_pos h1] at hm
    simp at hm
  · by_cases h2 : pyTruthy ((md.getD []).lookup "uid") = false
    · unfold analyze_image at hm
      rw [if_neg h1, if_pos h2] at hm
      simp at hm
    · by_cases h3 : env.labelsOk = false
      · unfold analyze_image at hm
        simp only [if_neg h1, if_neg h2, if_pos h3] at hm
        simp at hm
      · by_cases h4 : env.categoryOk = false
        · unfold analyze_image at hm
          simp only [if_neg h1, if_neg h2, if_neg h3, if_pos h4] at hm
          simp at hm
        · by_cases h5 : env.setUserOk = false
          · unfold analyze_image at hm
            simp only [if_neg h1, if_neg h2, if_neg h3, if_neg h4, if_pos h5] at hm
            simp at hm
          · by_cases h6 : pyTruthy ((md.getD []).lookup "public") = true
            · by_cases h7 : env.setPublicOk = false
              · unfold analyze_image at hm
                simp only [if_neg h1, if_neg h2, if_neg h3, if_neg h4, if_neg h5,
                  if_pos h6, if_pos h7] at hm
                simp at hm
              · unfold analyze_image
                simp only [if_neg h1, if_neg h2, if_neg h3, if_neg h4, if_neg h5,
                  if_pos h6, if_neg h7]
                apply iff_of_true _ h6
                by_cases h8 : env.patchOk = false
                · rw [if_pos h8]
                  exact ⟨_, _, List.mem_cons_of_mem _ (List.mem_cons_of_mem _
                    (List.mem_cons_of_mem _ (List.mem_cons_of_mem _
                      (List.mem_cons_self _ _))))⟩
                · rw [if_neg h8]
                  exact ⟨_, _, List.mem_cons_of_mem _ (List.mem_cons_of_mem _
                    (List.mem_cons_of_mem _ (List.mem_cons_of_mem _
                      (List.mem_cons_self _ _))))⟩
            · by_cases h8 : env.patchOk = false
              · unfold analyze_image at hm
                simp only [if_neg h1, if_neg h2, if_neg h3, if_neg h4, if_neg h5,
                  if_neg h6, if_pos h8] at hm
                simp at hm
              · unfold analyze_image
                simp only [if_neg h1, if_neg h2, if_neg h3, if_neg h4, if_neg h5,
                  if_neg h6, if_neg h8]
                apply iff_of_false _ h6
                rintro ⟨k, r, hk⟩
                simp at hk

/-- C9 (witness). -/
theorem public_ref_iff_truthy_public_witness :
    ∃ k r, AEvent.dbSetPublicRef k r ∈
      analyze_image mdTruePublic "photos/a.jpg" envAllOk :=
  (public_ref_iff_truthy_public mdTruePublic "photos/a.jpg" envAllOk
    ⟨[("public", "true"), ("uid", "u1"), ("processed", "true"), ("tagged", "true")],
     by decide⟩).mpr (by decide)

/-- C10.  The scheduled analysis sweep enumerates only blobs whose path
starts with `photos/`, and therefore never touches a blob whose path lies
in the processed namespace: a relocated artifact missed by the reactive
trigger is never picked up by this sweep. -/
theorem analysis_sweep_only_photos (store : List Blob) (env : String → VisionEnv) :
    (∀ q ∈ analyze_untagged_images store env, strStartsWith q.1 "photos/" = true) ∧
    (∀ q ∈ analyze_untagged_images store env, strStartsWith q.1 "processed/" = false) := by
  have h1 : ∀ q ∈ analyze_untagged_images store env,
      strStartsWith q.1 "photos/" = true := by
    intro q hq
    unfold analyze_untagged_images at hq
    obtain ⟨b, hb, hq2⟩ := List.mem_map.mp hq
    have hf := (List.mem_filter.mp hb).2
    rw [← hq2]
    simpa using hf
  exact ⟨h1, fun q hq => startsWith_photos_not_processed _ (h1 q hq)⟩

/-- C10 (witness). -/
theorem analysis_sweep_only_photos_witness :
    strStartsWith "photos/a.jpg" "photos/" = true ∧
    strStartsWith "photos/a.jpg" "processed/" = false := by
  constructor
  · exact (analysis_sweep_only_photos storeW envW).1
      ("photos/a.jpg", analyzeSweepStep blobPhotos (envW "photos/a.jpg")) (by decide)
  · exact (analysis_sweep_only_photos storeW envW).2
      ("photos/a.jpg", analyzeSweepStep blobPhotos (envW "photos/a.jpg")) (by decide)
